import Mathlib

/-!
Verification of the Learn_Better learning-assistant backend.

This file gives a shallow embedding, in Lean 4, of the pure computational
core of several components of the repository, translated directly from the
Python source:

* `src/ingestion/document_processor.py` — `DocumentProcessor.convert_to_markdown`
  (validation prefix) and `DocumentProcessor.chunk_content`;
* `src/ingestion/vector_storage.py` — `EmbeddingDimensionMismatchError`,
  `VectorStorage._validate_embedding_dimension`, `generate_embedding`,
  `store_chunk`, `retrieve_chunks_by_concept`;
* `src/routers/cognitive.py` — `update_settings` (PATCH /settings);
* `src/routers/goals.py` — `_enrich_goal_response` and `end_focus_session`;
* `src/routers/documents.py` — `_fallback_generate_items`;
* `src/services/concept_tutor.py` — `ConceptTutorService.get_active_intel`
  and `_get_fallback_intel`.

Python strings are modelled as Lean `String` (a list of unicode code points,
matching Python's code-point semantics for `len`, slicing and comparison).
Python `float` fields are modelled as `ℚ` (exact arithmetic; the modelled
programs only compare, add, divide and clamp, and the claims under test
involve exactly representable quantities).  Database state is modelled as an
explicit list of rows.  Helpers named `py...` model the Python string
builtins they are named after; ASCII whitespace is modelled for
`str.strip`/`str.split()` (the inputs the system manipulates are text files
and JSON fields, and no claim depends on non-ASCII whitespace).
-/

/-! ## Python string primitives -/

/-- Python `str` whitespace test (`str.strip`, `str.split()` with no
separator).  Models the ASCII whitespace characters recognised by Python:
space, tab, newline, carriage return, vertical tab, form feed. -/
def pyIsSpace (c : Char) : Bool :=
  c == ' ' || c == '\t' || c == '\n' || c == '\r' || c == '\x0b' || c == '\x0c'

/-- Python `s.strip()`: remove leading and trailing whitespace. -/
def pyStrip (s : String) : String :=
  String.mk (((s.data.dropWhile pyIsSpace).reverse.dropWhile pyIsSpace).reverse)

/-- Python `s.lower()` (ASCII range; the repository lowercases concept tags
and file suffixes, which are ASCII). -/
def pyLower (s : String) : String :=
  String.mk (s.data.map Char.toLower)

/-- Python `sep.join(parts)`. -/
def pyJoin (sep : String) : List String → String
  | [] => ""
  | [x] => x
  | x :: y :: xs => x ++ sep ++ pyJoin sep (y :: xs)

/-- Python `s.replace('\x00', '')`, the body of
`VectorStorage._sanitize_text` (vector_storage.py lines 86–90). -/
def sanitize_text (s : String) : String :=
  String.mk (s.data.filter (fun c => c ≠ Char.ofNat 0))

/-! ## Document Processor (`src/ingestion/document_processor.py`) -/

/-- Model of `DocumentProcessor.SUPPORTED_FORMATS`.  The Python source stores these in
a `set`; only membership is ever queried (the iteration order used to build
the error-message suffix is unspecified in Python, and no claim depends on
it), so a list is a faithful model. -/
def SUPPORTED_FORMATS : List String := [".pdf", ".docx", ".html", ".htm", ".md", ".txt"]

/-- Abstraction of the `pathlib.Path` facts consulted by
`convert_to_markdown`: whether the path exists on disk, and the extension
(`path.suffix`, including the leading dot, empty if none). -/
structure FsPath where
  pathExists : Bool
  suffix : String

/-- The error taxonomy of the spec: `FileNotFoundError ↦ NotFound`,
`ValueError ↦ InvalidInput`. -/
inductive ConvertError where
  | notFound (msg : String)
  | invalidInput (msg : String)
deriving DecidableEq

/-- The validation prefix of `DocumentProcessor.convert_to_markdown`
(document_processor.py lines 45–54): raise `FileNotFoundError` if the path
does not exist, then `ValueError` if the (lowercased) extension is
unsupported; otherwise continue to conversion (modelled as `.ok ()` — the
conversion itself performs I/O through MarkItDown/pypdf and is outside the
pure fragment these claims address). -/
def convert_to_markdown_validate (path : FsPath) (file_path : String) :
    Except ConvertError Unit :=
  if path.pathExists = false then
    .error (.notFound ("File not found: " ++ file_path))
  else if (SUPPORTED_FORMATS.contains (pyLower path.suffix)) = false then
    .error (.invalidInput
      ("Unsupported file format: " ++ path.suffix ++ ". Supported formats: "
        ++ pyJoin ", " SUPPORTED_FORMATS))
  else
    .ok ()

/-- The pieces produced by the force-split loop
`for i in range(0, sent_size, self.chunk_size)` in `chunk_content`:
successive slices `sentence[i:i+chunk_size]`.  `fuel` bounds the number of
iterations (instantiated with the length of the list, which suffices for any
`k ≥ 1`; for `k = 0` Python's `range` raises `ValueError`, and all theorems
below assume a positive chunk size). -/
def chunkPiecesGo (k : Nat) : Nat → List Char → List String
  | _, [] => []
  | 0, _ => []
  | fuel + 1, cs => String.mk (cs.take k) :: chunkPiecesGo k fuel (cs.drop k)

def chunkPieces (k : Nat) (cs : List Char) : List String :=
  chunkPiecesGo k cs.length cs

/-- The loop state of `chunk_content`: emitted chunks, the paragraphs (or
sentences) accumulated into the chunk under construction, and the running
size counter (`current_chunk`/`current_size`, `temp_chunk`/`temp_size`). -/
structure ChunkSt where
  chunks : List (String × String)
  cur : List String
  size : Nat

/-- One iteration of the inner sentence loop of
`DocumentProcessor.chunk_content` (document_processor.py lines 262–287),
acting on the state `(chunks, temp_chunk, temp_size)`. -/
def stepSentence (chunk_size : Nat) (concept_tag : String)
    (st : ChunkSt) (sentence0 : String) : ChunkSt :=
  let sentence := pyStrip sentence0
  if sentence = "" then st
  else
    let sent_size := sentence.length
    if sent_size > chunk_size then
      -- save current temp chunk, then force-split the large sentence
      let chunks1 :=
        if st.cur = [] then st.chunks
        else st.chunks ++ [(pyJoin " " st.cur, concept_tag)]
      ⟨chunks1 ++ (chunkPieces chunk_size sentence.data).map (fun p => (p, concept_tag)),
        [], 0⟩
    else if st.size + sent_size > chunk_size ∧ st.cur ≠ [] then
      ⟨st.chunks ++ [(pyJoin " " st.cur, concept_tag)], [sentence], sent_size⟩
    else
      ⟨st.chunks, st.cur ++ [sentence], st.size + sent_size + 1⟩

/-- One iteration of the paragraph loop of `DocumentProcessor.chunk_content`
(document_processor.py lines 242–299), acting on
`(chunks, current_chunk, current_size)`. -/
def stepParagraph (chunk_size : Nat) (concept_tag : String)
    (st : ChunkSt) (paragraph0 : String) : ChunkSt :=
  let paragraph := pyStrip paragraph0
  if paragraph = "" then st
  else
    let para_size := paragraph.length
    if para_size > chunk_size then
      let chunks1 :=
        if st.cur = [] then st.chunks
        else st.chunks ++ [(pyJoin "\n\n" st.cur, concept_tag)]
      let sentences := (paragraph.replace ". " ".\n").splitOn "\n"
      let inner := sentences.foldl (stepSentence chunk_size concept_tag) ⟨chunks1, [], 0⟩
      let chunks2 :=
        if inner.cur = [] then inner.chunks
        else inner.chunks ++ [(pyJoin " " inner.cur, concept_tag)]
      ⟨chunks2, [], 0⟩
    else if st.size + para_size > chunk_size ∧ st.cur ≠ [] then
      ⟨st.chunks ++ [(pyJoin "\n\n" st.cur, concept_tag)], [paragraph], para_size⟩
    else
      ⟨st.chunks, st.cur ++ [paragraph], st.size + para_size + 2⟩

/-- Model of `DocumentProcessor.chunk_content(markdown, concept_tag)`
(document_processor.py lines 218–305).  `chunk_size` is the constructor
argument `self.chunk_size` (default 1000).  Returns the list of
`(chunk_content, concept_tag)` pairs. -/
def chunk_content (chunk_size : Nat) (markdown concept_tag : String) :
    List (String × String) :=
  -- `if not markdown or not markdown.strip(): return []`
  if pyStrip markdown = "" then []
  else
    let paragraphs := markdown.splitOn "\n\n"
    let final := paragraphs.foldl (stepParagraph chunk_size concept_tag) ⟨[], [], 0⟩
    if final.cur = [] then final.chunks
    else final.chunks ++ [(pyJoin "\n\n" final.cur, concept_tag)]

/-! ## Vector Storage (`src/ingestion/vector_storage.py`) -/

/-- The embedding-related configuration fields of the process-wide `settings`
object read by `VectorStorage` (`src/config.py` is configuration plumbing;
the fields are free-form optional strings / an optional integer override). -/
structure EmbConfig where
  embedding_provider : Option String
  embedding_model : Option String
  embedding_base_url : Option String
  ollama_base_url : Option String
  embedding_dimensions : Option Int

/-- Model of `EmbeddingDimensionMismatchError` (vector_storage.py lines 26–47): the
structured diagnostic carried by a dimension mismatch. -/
structure EmbeddingDimensionMismatchError where
  expected_db_dimensions : Int
  actual_model_dimensions : Int
  configured_dimensions : Option Int
  provider : String
  model : String
  base_url : Option String
deriving DecidableEq

/-- The human message built by the constructor (`super().__init__(...)`,
vector_storage.py lines 44–47). -/
def EmbeddingDimensionMismatchError.message (e : EmbeddingDimensionMismatchError) : String :=
  "Embedding dimension mismatch: model produced " ++ toString e.actual_model_dimensions
    ++ ", but vector index expects " ++ toString e.expected_db_dimensions ++ "."

/-- The machine-readable payload shape returned by
`EmbeddingDimensionMismatchError.to_payload` (vector_storage.py lines
49–63). -/
structure DimMismatchPayload where
  code : String
  message : String
  expected_db_dimensions : Int
  actual_model_dimensions : Int
  configured_dimensions : Option Int
  provider : String
  model : String
  base_url : Option String
  action : String
  recommendation : String
deriving DecidableEq

def EmbeddingDimensionMismatchError.to_payload (e : EmbeddingDimensionMismatchError) :
    DimMismatchPayload where
  code := "EMBEDDING_DIMENSION_MISMATCH"
  message := e.message
  expected_db_dimensions := e.expected_db_dimensions
  actual_model_dimensions := e.actual_model_dimensions
  configured_dimensions := e.configured_dimensions
  provider := e.provider
  model := e.model
  base_url := e.base_url
  action := "update_dimensions_and_reindex"
  recommendation :=
    "Update embedding dimensions to match your vector index and reindex embeddings."

/-- Python `x or ""` for `x : Optional[str]`: `None` and `""` are both falsy. -/
def orEmpty : Option String → String
  | none => ""
  | some s => s

/-- Python `x or y` where a falsy `x` (here `None` or `""`) yields `y`. -/
def orElseStr : Option String → Option String → Option String
  | none, y => y
  | some s, y => if s = "" then y else some s

/-- The base-URL resolution in `_validate_embedding_dimension`
(vector_storage.py lines 168–172): `settings.embedding_base_url`, falling
back to `settings.ollama_base_url` when the provider is `"ollama"` and no
base URL is configured. -/
def resolveBaseUrl (cfg : EmbConfig) : Option String :=
  let provider := pyLower (orEmpty cfg.embedding_provider)
  if provider = "ollama" ∧ (orElseStr cfg.embedding_base_url none) = none then
    cfg.ollama_base_url
  else
    cfg.embedding_base_url

/-- Model of `VectorStorage._validate_embedding_dimension(embedding)`
(vector_storage.py lines 149–181).  `expected` is the cached result of
`_get_expected_vector_dimension()` (`None` when the schema probe found an
unconstrained column or could not determine a width — dimension checking
disabled).  Returns `none` when validation passes and `some err` when the
Python code raises `EmbeddingDimensionMismatchError err`.  (The
`_dimension_warning_emitted` flag only gates a log line and is not
modelled.) -/
def _validate_embedding_dimension (expected : Option Int) (cfg : EmbConfig)
    (embedding : List Float) : Option EmbeddingDimensionMismatchError :=
  match expected with
  | none => none
  | some e =>
    if e ≤ 0 then none
    else if (embedding.length : Int) = e then none
    else
      some
        { expected_db_dimensions := e
          actual_model_dimensions := (embedding.length : Int)
          configured_dimensions := cfg.embedding_dimensions
          provider := pyLower (orEmpty cfg.embedding_provider)
          model := orEmpty cfg.embedding_model
          base_url := resolveBaseUrl cfg }

/-- The errors `generate_embedding` can surface: a generic `ValueError`
(empty text / wrapped failure) or the structured dimension mismatch. -/
inductive EmbedError where
  | valueError (msg : String)
  | dimMismatch (e : EmbeddingDimensionMismatchError)

/-- Model of `VectorStorage.generate_embedding(text)` (vector_storage.py lines
184–204).  The call to `llm_service.get_embedding` is an external LLM
round-trip; its result is the parameter `embedding`.  The subsequent
dimension validation raises `EmbeddingDimensionMismatchError`, which the
handler re-raises unchanged. -/
def generate_embedding (expected : Option Int) (cfg : EmbConfig)
    (text : String) (embedding : List Float) : Except EmbedError (List Float) :=
  if pyStrip text = "" then
    .error (.valueError "Cannot generate embedding for empty text")
  else
    match _validate_embedding_dimension expected cfg embedding with
    | some e => .error (.dimMismatch e)
    | none => .ok embedding

/-- A row of the `learning_chunks` table as written by `store_chunk`. -/
structure LearningChunkRow where
  id : Nat
  doc_source : String
  content : String
  embedding : List Float
  concept_tag : String
  document_id : Option Nat
  embedding_dimensions : Nat
  created_at : Nat

/-- The vector store: the `learning_chunks` table, kept in insertion order
(`created_at` is the insertion counter, strictly increasing, so the list
order is the `ORDER BY created_at ASC` order), plus the id sequence. -/
structure VectorDb where
  rows : List LearningChunkRow
  next_id : Nat
  clock : Nat

def VectorDb.empty : VectorDb := ⟨[], 0, 0⟩

/-- Model of `VectorStorage.store_chunk(doc_source, content, concept_tag,
document_id)` (vector_storage.py lines 206–254): validate the three text
fields non-empty, generate (and dimension-validate) the embedding, then
`INSERT INTO learning_chunks ... RETURNING id` with the sanitized/trimmed
fields and the lowercased concept tag.  Returns the new row id and the
updated store.  (The `except` translation of database-reported dimension
errors, lines 256–284, concerns a failing insert and is not reachable for
the in-model insert, which always succeeds.) -/
def store_chunk (expected : Option Int) (cfg : EmbConfig) (embedding : List Float)
    (db : VectorDb) (doc_source content concept_tag : String)
    (document_id : Option Nat) : Except EmbedError (Nat × VectorDb) :=
  if pyStrip doc_source = "" then .error (.valueError "doc_source cannot be empty")
  else if pyStrip content = "" then .error (.valueError "content cannot be empty")
  else if pyStrip concept_tag = "" then .error (.valueError "concept_tag cannot be empty")
  else
    match generate_embedding expected cfg content embedding with
    | .error e => .error e
    | .ok emb =>
      let row : LearningChunkRow :=
        { id := db.next_id
          doc_source := sanitize_text (pyStrip doc_source)
          content := sanitize_text (pyStrip content)
          embedding := emb
          concept_tag := sanitize_text (pyLower (pyStrip concept_tag))
          document_id := document_id
          embedding_dimensions := emb.length
          created_at := db.clock }
      .ok (db.next_id, ⟨db.rows ++ [row], db.next_id + 1, db.clock + 1⟩)

/-- The `LearningChunk` transfer object materialised by
`retrieve_chunks_by_concept` (the `SELECT id, doc_source, content,
concept_tag, created_at` projection). -/
structure LearningChunk where
  id : Nat
  doc_source : String
  content : String
  concept_tag : String
  created_at : Nat
deriving DecidableEq

/-- Model of `VectorStorage.retrieve_chunks_by_concept(concept_tag, limit)`
(vector_storage.py lines 416–462): reject an empty tag, then select the
rows whose `concept_tag` equals the trimmed, lowercased query tag, in
`created_at` ascending order (the store's list order), optionally limited
(`if limit:` — a `None` or `0` limit applies no `LIMIT` clause). -/
def retrieve_chunks_by_concept (db : VectorDb) (concept_tag : String)
    (limit : Option Nat) : Except String (List LearningChunk) :=
  if pyStrip concept_tag = "" then .error "concept_tag cannot be empty"
  else
    let key := pyLower (pyStrip concept_tag)
    let selected := (db.rows.filter (fun r => r.concept_tag = key)).map
      (fun r => LearningChunk.mk r.id r.doc_source r.content r.concept_tag r.created_at)
    match limit with
    | none => .ok selected
    | some n => if n = 0 then .ok selected else .ok (selected.take n)

/-! ## Cognitive settings (`src/routers/cognitive.py`) -/

/-- The `SettingsUpdate` request model (cognitive.py lines 14–30); the
`llm_config` / embedding-mirror fields are free-form JSON plumbing that
never touches the four calibration fields and are elided. -/
structure SettingsUpdate where
  target_retention : Option ℚ
  daily_new_limit : Option Int
  focus_duration : Option Int
  break_duration : Option Int
  email : Option String
  resend_api_key : Option String
  email_daily_reminder : Option Bool
  email_streak_alert : Option Bool
  email_weekly_digest : Option Bool

/-- The calibration / notification columns of the `UserSettings` row that
`update_settings` mutates. -/
structure UserSettingsRow where
  target_retention : ℚ
  daily_new_limit : Int
  focus_duration : Int
  break_duration : Int
  email : Option String
  resend_api_key : Option String
  email_daily_reminder : Bool
  email_streak_alert : Bool
  email_weekly_digest : Bool

/-- Model of `update_settings` (PATCH `/api/cognitive/settings`, cognitive.py lines
88–155): apply each supplied field, clamping the four calibration values
(`max(lo, min(hi, x))`) before assignment; unspecified (`None`) fields are
left untouched.  The Python body is a sequence of independent single-field
assignments, so the resulting row is written field-wise here, each field
carrying its own `if data.x is not None` rule.  The trailing `llm_config` /
embedding blocks (lines 124–152) write only to `llm_config`/embedding
columns and never to the calibration fields. -/
def update_settings (data : SettingsUpdate) (s : UserSettingsRow) : UserSettingsRow where
  target_retention := match data.target_retention with
    | none => s.target_retention
    | some v => max 0.7 (min 0.97 v)
  daily_new_limit := match data.daily_new_limit with
    | none => s.daily_new_limit
    | some v => max 1 (min 100 v)
  focus_duration := match data.focus_duration with
    | none => s.focus_duration
    | some v => max 5 (min 120 v)
  break_duration := match data.break_duration with
    | none => s.break_duration
    | some v => max 1 (min 30 v)
  email := match data.email with
    | none => s.email
    | some v => some v
  resend_api_key := match data.resend_api_key with
    | none => s.resend_api_key
    | some v => some v
  email_daily_reminder := match data.email_daily_reminder with
    | none => s.email_daily_reminder
    | some v => v
  email_streak_alert := match data.email_streak_alert with
    | none => s.email_streak_alert
    | some v => v
  email_weekly_digest := match data.email_weekly_digest with
    | none => s.email_weekly_digest
    | some v => v

/-! ## Goals router (`src/routers/goals.py`) -/

/-- The `Goal` row fields consulted by `_enrich_goal_response` and
`end_focus_session`.  `src/models/orm.py` / `src/models/schemas.py` are not
part of the provided sources; per the spec (§3 **Goal**) the fields are
plain numbers with no further constraint (`target hours`, `logged hours`,
optional `deadline`).  Timestamps are modelled as rational seconds since the
epoch; `float` hours as `ℚ`. -/
structure Goal where
  id : String
  title : String
  target_hours : ℚ
  logged_hours : ℚ
  deadline : Option ℚ
  priority : Int
  status : String

/-- The computed fields of `GoalResponse` added by `_enrich_goal_response`
(the persisted fields are copied through unchanged and elided here). -/
structure GoalEnrichment where
  progress_percent : ℚ
  days_remaining : Option Int
  is_on_track : Bool
deriving DecidableEq

/-- Model of `_enrich_goal_response(goal)` (goals.py lines 143–174).  `now` is
`datetime.utcnow()`; `(goal.deadline - now).days` is the floor of the
difference in whole days (Python `timedelta.days` floors toward negative
infinity). -/
def _enrich_goal_response (now : ℚ) (goal : Goal) : GoalEnrichment :=
  let progress : ℚ :=
    if goal.target_hours > 0 then goal.logged_hours / goal.target_hours * 100 else 0
  match goal.deadline with
  | none =>
      { progress_percent := min 100 progress
        days_remaining := none
        is_on_track := true }
  | some d =>
      let days : Int := Int.floor ((d - now) / 86400)
      let on_track : Bool :=
        if days > 0 ∧ goal.target_hours > 0 then
          decide ((goal.target_hours - goal.logged_hours) / (days : ℚ) ≤ 2)
        else true
      { progress_percent := min 100 progress
        days_remaining := some days
        is_on_track := on_track }

/-- Modelled from the spec: the `FocusSessionEnd` request schema lives in
`src/models/schemas.py`, which is not among the provided sources.  The spec
(§3 **FocusSession**, §4.12) describes it as carrying `duration minutes` and
`notes`, with no constraint on the sign or range of the duration. -/
structure FocusSessionEnd where
  duration_minutes : ℚ
  notes : Option String

/-- The `FocusSession` row fields mutated by `end_focus_session`. -/
structure FocusSession where
  id : String
  goal_id : Option String
  end_time : Option ℚ
  duration_minutes : Option ℚ
  notes : Option String

/-- The core of `end_focus_session` (goals.py lines 106–129): stamp the
session's end time, duration and notes, and, when the session is linked to a
goal that exists, add `duration_minutes / 60.0` to that goal's
`logged_hours`.  `goal` is the result of the `Goal` lookup for
`session.goal_id` (`none` when the session is unlinked or the goal row is
missing, in which case the goal table is untouched). -/
def end_focus_session (now : ℚ) (session : FocusSession) (goal : Option Goal)
    (end_data : FocusSessionEnd) : FocusSession × Option Goal :=
  let session' :=
    { session with
        end_time := some now
        duration_minutes := some end_data.duration_minutes
        notes := end_data.notes }
  match session.goal_id, goal with
  | some _, some g =>
      (session', some { g with logged_hours := g.logged_hours + end_data.duration_minutes / 60 })
  | _, _ => (session', goal)

/-! ## Quiz fallback generation (`src/routers/documents.py`) -/

/-- Python `re.split(r"\n{2,}", text)`: maximal runs of two or more
newlines separate the pieces; a single newline stays inside a piece.
`pending` counts the newlines seen since the last non-newline character. -/
def reSplitBlankGo : List Char → List Char → Nat → List String
  | [], acc, pending =>
      if pending ≥ 2 then [String.mk acc.reverse, ""]
      else [String.mk (List.replicate pending '\n' ++ acc).reverse]
  | c :: cs, acc, pending =>
      if c = '\n' then reSplitBlankGo cs acc (pending + 1)
      else if pending ≥ 2 then
        -- a separator run just ended: close the current piece
        String.mk acc.reverse :: reSplitBlankGo cs [c] 0
      else
        reSplitBlankGo cs (c :: (List.replicate pending '\n' ++ acc)) 0

def reSplitBlank (s : String) : List String :=
  reSplitBlankGo s.data [] 0

/-- Python `s.split()` (no separator): split on runs of whitespace,
discarding empty pieces. -/
def pyWordsGo : List Char → List Char → List String
  | [], acc => if acc = [] then [] else [String.mk acc.reverse]
  | c :: cs, acc =>
      if pyIsSpace c then
        if acc = [] then pyWordsGo cs []
        else String.mk acc.reverse :: pyWordsGo cs []
      else
        pyWordsGo cs (c :: acc)

def pyWords (s : String) : List String :=
  pyWordsGo s.data []

/-- The inner word loop of `_fallback_generate_items` (documents.py lines
697–702): walk the paragraph's words accumulating `masked`; a word longer
than 6 characters is replaced by `"[[blank]]"` while fewer than 3 entries
have been accumulated so far (`len(masked) < 3` counts *all* accumulated
words, so only words among the first three positions are ever masked). -/
def maskWordsGo : List String → List String → List String
  | acc, [] => acc
  | acc, w :: ws =>
      if w.length > 6 ∧ acc.length < 3 then maskWordsGo (acc ++ ["[[blank]]"]) ws
      else maskWordsGo (acc ++ [w]) ws

/-- The quiz-item dictionaries produced by `_fallback_generate_items`. -/
structure QuizFallbackItem where
  passage_markdown : String
  masked_markdown : String
  answer_key : List String
deriving DecidableEq

/-- Model of `_fallback_generate_items(text, count)` (documents.py lines 691–709):
keep the stripped paragraphs longer than 80 characters, take the first
`count` of them, and for each emit the passage, its masked join, and the
fixed answer key.  (`count` is the request's item count, a non-negative
quantity; Python list slicing `paragraphs[:count]` is `List.take`.) -/
def _fallback_generate_items (text : String) (count : Nat) : List QuizFallbackItem :=
  let paragraphs :=
    ((reSplitBlank text).map pyStrip).filter (fun p => p.length > 80)
  (paragraphs.take count).map (fun p =>
    { passage_markdown := p
      masked_markdown := pyJoin " " (maskWordsGo [] (pyWords p))
      answer_key := ["Key ideas from passage"] })

/-! ## Concept tutor (`src/services/concept_tutor.py`) -/

/-- The `{analogy, insight, question}` dictionary returned by the tutor. -/
structure ActiveIntel where
  analogy : String
  insight : String
  question : String
deriving DecidableEq

/-- Model of `ConceptTutorService._get_fallback_intel(concept_name)`
(concept_tutor.py lines 97–103). -/
def _get_fallback_intel (concept_name : String) : ActiveIntel where
  analogy := "Imagine " ++ concept_name ++ " as a building block in your knowledge."
  insight := "Mastering this unlocks more advanced topics."
  question := "Can you explain " ++ concept_name ++ " in your own words?"

/-- Python attribute access `response.get(key, default)` where `response`
is a `str` (the raw LLM completion text): `str` has no attribute `get`, so
the access raises `AttributeError`.  Modelled as the raised exception
message. -/
def strDotGet (_response key _default : String) : Except String String :=
  .error ("AttributeError: str object has no attribute get: " ++ key)

/-- The body of `ConceptTutorService.get_active_intel` from the point where
the LLM completion `response : str` is available (concept_tutor.py lines
67–91), i.e. the `try` block's tail.  Lines 68–82 compute `response_data`
(code-fence unwrapping, brace slicing, `json.loads`, defaulting to `{}` on
parse failure); `response_data` is never read afterwards, so that dead
assignment is not modelled.  Lines 84–85 return the fallback when
`response` is falsy (the empty string).  Lines 87–91 build the result dict
by calling `.get` on `response` itself — the raw string — which raises. -/
def get_active_intel_try (concept_name response : String) : Except String ActiveIntel :=
  if response = "" then .ok (_get_fallback_intel concept_name)
  else
    match strDotGet response "analogy" "Think of it like a puzzle piece." with
    | .error e => .error e
    | .ok analogy =>
      match strDotGet response "insight" "It connects foundational ideas." with
      | .error e => .error e
      | .ok insight =>
        match strDotGet response "question" "How does this relate to what you already know?" with
        | .error e => .error e
        | .ok question => .ok (ActiveIntel.mk analogy insight question)

/-- Model of `ConceptTutorService.get_active_intel(concept_name, ...)` after the LLM
call returned `response` (concept_tutor.py lines 61–95): any exception from
the `try` body is caught by the outer handler (line 93), which returns
`_get_fallback_intel(concept_name)`. -/
def get_active_intel (concept_name response : String) : ActiveIntel :=
  match get_active_intel_try concept_name response with
  | .ok r => r
  | .error _ => _get_fallback_intel concept_name

/-!
# Theorems

## String-primitive lemmas
-/

theorem pyJoin_append (sep x : String) :
    ∀ (l : List String), l ≠ [] →
      pyJoin sep (l ++ [x]) = pyJoin sep l ++ sep ++ x := by
  intro l
  induction l with
  | nil => intro h; exact absurd rfl h
  | cons a t ih =>
    intro _
    cases t with
    | nil => simp [pyJoin]
    | cons b t2 =>
      have h2 := ih (by simp)
      simp only [List.cons_append] at h2 ⊢
      simp only [pyJoin]
      rw [h2]
      simp only [String.append_assoc]

theorem length_mk (l : List Char) : (String.mk l).length = l.length := rfl

theorem ne_empty_length_pos (s : String) (h : s ≠ "") : 1 ≤ s.length := by
  cases s with
  | mk l =>
    cases l with
    | nil => exact absurd rfl h
    | cons c cs => simp [length_mk]

theorem length_space : (" " : String).length = 1 := rfl

theorem length_2nl : ("\n\n" : String).length = 2 := rfl

/-! ## Chunking invariants (claims C1 and C2) -/

theorem chunkPiecesGo_piece_le (k : Nat) :
    ∀ (fuel : Nat) (cs : List Char), ∀ p ∈ chunkPiecesGo k fuel cs, p.length ≤ k := by
  intro fuel
  induction fuel with
  | zero =>
    intro cs p hp
    cases cs <;> simp [chunkPiecesGo] at hp
  | succ n ih =>
    intro cs p hp
    cases cs with
    | nil => simp [chunkPiecesGo] at hp
    | cons c cs2 =>
      simp only [chunkPiecesGo] at hp
      rcases List.mem_cons.mp hp with h1 | h2
      · rw [h1, length_mk, List.length_take]
        omega
      · exact ih _ p h2

theorem chunkPieces_piece_le (k : Nat) (cs : List Char) :
    ∀ p ∈ chunkPieces k cs, p.length ≤ k :=
  chunkPiecesGo_piece_le k cs.length cs

theorem foldl_preserve {σ α : Type _} {P : σ → Prop} {f : σ → α → σ}
    (hf : ∀ s a, P s → P (f s a)) :
    ∀ (l : List α) (s : σ), P s → P (l.foldl f s) := by
  intro l
  induction l with
  | nil => intro s hs; simpa using hs
  | cons a t ih => intro s hs; simpa using ih (f s a) (hf s a hs)

/-- Size invariant of the `chunk_content` loops: every emitted chunk is
within `2 * chunk_size`, and the chunk under construction joins to a string
no longer than the running size counter, which is positive whenever the
accumulator is non-empty, the join itself also within `2 * chunk_size`. -/
def ChunkInv (S : Nat) (sep : String) (st : ChunkSt) : Prop :=
  (∀ c ∈ st.chunks, c.1.length ≤ 2 * S) ∧
  (st.cur = [] ∨
    ((pyJoin sep st.cur).length ≤ st.size ∧ 1 ≤ st.size ∧
      (pyJoin sep st.cur).length ≤ 2 * S))

theorem flush_chunks_bound {S : Nat} {sep tag : String} {st : ChunkSt}
    (h : ChunkInv S sep st) :
    ∀ c ∈ (if st.cur = [] then st.chunks
           else st.chunks ++ [(pyJoin sep st.cur, tag)]),
      c.1.length ≤ 2 * S := by
  intro c hc
  by_cases h0 : st.cur = []
  · rw [if_pos h0] at hc; exact h.1 c hc
  · rw [if_neg h0] at hc
    rcases List.mem_append.mp hc with h1 | h2
    · exact h.1 c h1
    · rcases h.2 with hnil | ⟨_, _, hb⟩
      · exact absurd hnil h0
      · have hc2 : c = (pyJoin sep st.cur, tag) := by simpa using h2
        rw [hc2]; exact hb

theorem stepSentence_inv (S : Nat) (tag : String) (hS : 1 ≤ S)
    (st : ChunkSt) (s0 : String) (h : ChunkInv S " " st) :
    ChunkInv S " " (stepSentence S tag st s0) := by
  obtain ⟨hch, hcur⟩ := h
  simp only [stepSentence]
  split
  · exact ⟨hch, hcur⟩
  next he =>
    split
    next hbig =>
      -- force-split branch
      refine ⟨?_, Or.inl rfl⟩
      intro c hc
      rcases List.mem_append.mp hc with h1 | h2
      · exact flush_chunks_bound ⟨hch, hcur⟩ c h1
      · obtain ⟨p, hp, rfl⟩ := List.mem_map.mp h2
        have hple : p.length ≤ S := chunkPieces_piece_le S _ p hp
        show p.length ≤ 2 * S
        omega
    next hbig =>
      split
      next hcond =>
        -- flush the temp chunk and restart it with this sentence
        obtain ⟨hgt, hne⟩ := hcond
        rcases hcur with hnil | ⟨hle, hpos, hb⟩
        · exact absurd hnil hne
        refine ⟨?_, Or.inr ⟨?_, ?_, ?_⟩⟩
        · intro c hc
          rcases List.mem_append.mp hc with h1 | h2
          · exact hch c h1
          · have hc2 : c = (pyJoin " " st.cur, tag) := by simpa using h2
            rw [hc2]; exact hb
        · show (pyJoin " " [pyStrip s0]).length ≤ (pyStrip s0).length
          simp [pyJoin]
        · exact ne_empty_length_pos _ he
        · show (pyJoin " " [pyStrip s0]).length ≤ 2 * S
          simp only [pyJoin]
          omega
      next hcond =>
        -- append the sentence to the temp chunk
        have hles : (pyStrip s0).length ≤ S := Nat.le_of_not_lt hbig
        refine ⟨hch, Or.inr ?_⟩
        by_cases h0 : st.cur = []
        · refine ⟨?_, ?_, ?_⟩
          · show (pyJoin " " (st.cur ++ [pyStrip s0])).length
              ≤ st.size + (pyStrip s0).length + 1
            rw [h0]
            simp only [List.nil_append, pyJoin]
            omega
          · show 1 ≤ st.size + (pyStrip s0).length + 1
            omega
          · show (pyJoin " " (st.cur ++ [pyStrip s0])).length ≤ 2 * S
            rw [h0]
            simp only [List.nil_append, pyJoin]
            omega
        · have hsz : st.size + (pyStrip s0).length ≤ S := by
            rcases not_and_or.mp hcond with h1 | h1
            · omega
            · exact absurd (not_not.mp h1) h0
          rcases hcur with hnil | ⟨hle, hpos, hb⟩
          · exact absurd hnil h0
          have hjl : (pyJoin " " (st.cur ++ [pyStrip s0])).length
              = (pyJoin " " st.cur).length + 1 + (pyStrip s0).length := by
            rw [pyJoin_append " " (pyStrip s0) st.cur h0,
              String.length_append, String.length_append, length_space]
          refine ⟨?_, ?_, ?_⟩
          · show (pyJoin " " (st.cur ++ [pyStrip s0])).length
              ≤ st.size + (pyStrip s0).length + 1
            rw [hjl]; omega
          · show 1 ≤ st.size + (pyStrip s0).length + 1
            omega
          · show (pyJoin " " (st.cur ++ [pyStrip s0])).length ≤ 2 * S
            rw [hjl]; omega

theorem stepParagraph_inv (S : Nat) (tag : String) (hS : 1 ≤ S)
    (st : ChunkSt) (p0 : String) (h : ChunkInv S "\n\n" st) :
    ChunkInv S "\n\n" (stepParagraph S tag st p0) := by
  obtain ⟨hch, hcur⟩ := h
  simp only [stepParagraph]
  split
  · exact ⟨hch, hcur⟩
  next he =>
    split
    next hbig =>
      -- paragraph larger than the chunk size: flush, then sentence loop
      have hinner : ChunkInv S " "
          ((((pyStrip p0).replace ". " ".\n").splitOn "\n").foldl
            (stepSentence S tag)
            ⟨if st.cur = [] then st.chunks
             else st.chunks ++ [(pyJoin "\n\n" st.cur, tag)], [], 0⟩) := by
        refine foldl_preserve (fun s a hs => stepSentence_inv S tag hS s a hs) _ _ ?_
        exact ⟨flush_chunks_bound ⟨hch, hcur⟩, Or.inl rfl⟩
      refine ⟨?_, Or.inl rfl⟩
      exact flush_chunks_bound hinner
    next hbig =>
      split
      next hcond =>
        obtain ⟨hgt, hne⟩ := hcond
        rcases hcur with hnil | ⟨hle, hpos, hb⟩
        · exact absurd hnil hne
        refine ⟨?_, Or.inr ⟨?_, ?_, ?_⟩⟩
        · intro c hc
          rcases List.mem_append.mp hc with h1 | h2
          · exact hch c h1
          · have hc2 : c = (pyJoin "\n\n" st.cur, tag) := by simpa using h2
            rw [hc2]; exact hb
        · show (pyJoin "\n\n" [pyStrip p0]).length ≤ (pyStrip p0).length
          simp [pyJoin]
        · exact ne_empty_length_pos _ he
        · show (pyJoin "\n\n" [pyStrip p0]).length ≤ 2 * S
          simp only [pyJoin]
          omega
      next hcond =>
        have hles : (pyStrip p0).length ≤ S := Nat.le_of_not_lt hbig
        refine ⟨hch, Or.inr ?_⟩
        by_cases h0 : st.cur = []
        · refine ⟨?_, ?_, ?_⟩
          · show (pyJoin "\n\n" (st.cur ++ [pyStrip p0])).length
              ≤ st.size + (pyStrip p0).length + 2
            rw [h0]
            simp only [List.nil_append, pyJoin]
            omega
          · show 1 ≤ st.size + (pyStrip p0).length + 2
            omega
          · show (pyJoin "\n\n" (st.cur ++ [pyStrip p0])).length ≤ 2 * S
            rw [h0]
            simp only [List.nil_append, pyJoin]
            omega
        · have hsz : st.size + (pyStrip p0).length ≤ S := by
            rcases not_and_or.mp hcond with h1 | h1
            · omega
            · exact absurd (not_not.mp h1) h0
          rcases hcur with hnil | ⟨hle, hpos, hb⟩
          · exact absurd hnil h0
          have hplen : 1 ≤ (pyStrip p0).length := ne_empty_length_pos _ he
          have hjl : (pyJoin "\n\n" (st.cur ++ [pyStrip p0])).length
              = (pyJoin "\n\n" st.cur).length + 2 + (pyStrip p0).length := by
            rw [pyJoin_append "\n\n" (pyStrip p0) st.cur h0,
              String.length_append, String.length_append, length_2nl]
          refine ⟨?_, ?_, ?_⟩
          · show (pyJoin "\n\n" (st.cur ++ [pyStrip p0])).length
              ≤ st.size + (pyStrip p0).length + 2
            rw [hjl]; omega
          · show 1 ≤ st.size + (pyStrip p0).length + 2
            omega
          · show (pyJoin "\n\n" (st.cur ++ [pyStrip p0])).length ≤ 2 * S
            rw [hjl]; omega

/-- Tag invariant of the `chunk_content` loops: every emitted chunk carries
the supplied concept tag. -/
def TagInv (tag : String) (st : ChunkSt) : Prop :=
  ∀ c ∈ st.chunks, c.2 = tag

theorem flush_chunks_tag {tag sep : String} {st : ChunkSt} (h : TagInv tag st) :
    ∀ c ∈ (if st.cur = [] then st.chunks
           else st.chunks ++ [(pyJoin sep st.cur, tag)]),
      c.2 = tag := by
  intro c hc
  by_cases h0 : st.cur = []
  · rw [if_pos h0] at hc; exact h c hc
  · rw [if_neg h0] at hc
    rcases List.mem_append.mp hc with h1 | h2
    · exact h c h1
    · have hc2 : c = (pyJoin sep st.cur, tag) := by simpa using h2
      rw [hc2]

theorem stepSentence_tag (S : Nat) (tag : String) (st : ChunkSt) (s0 : String)
    (h : TagInv tag st) : TagInv tag (stepSentence S tag st s0) := by
  simp only [stepSentence]
  split
  · exact h
  next he =>
    split
    next hbig =>
      intro c hc
      rcases List.mem_append.mp hc with h1 | h2
      · exact flush_chunks_tag h c h1
      · obtain ⟨p, _, rfl⟩ := List.mem_map.mp h2
        rfl
    next hbig =>
      split
      next hcond =>
        intro c hc
        rcases List.mem_append.mp hc with h1 | h2
        · exact h c h1
        · have hc2 : c = (pyJoin " " st.cur, tag) := by simpa using h2
          rw [hc2]
      next hcond =>
        exact h

theorem stepParagraph_tag (S : Nat) (tag : String) (st : ChunkSt) (p0 : String)
    (h : TagInv tag st) : TagInv tag (stepParagraph S tag st p0) := by
  simp only [stepParagraph]
  split
  · exact h
  next he =>
    split
    next hbig =>
      have hinner : TagInv tag
          ((((pyStrip p0).replace ". " ".\n").splitOn "\n").foldl
            (stepSentence S tag)
            ⟨if st.cur = [] then st.chunks
             else st.chunks ++ [(pyJoin "\n\n" st.cur, tag)], [], 0⟩) := by
        refine foldl_preserve (fun s a hs => stepSentence_tag S tag s a hs) _ _ ?_
        exact flush_chunks_tag h
      exact flush_chunks_tag hinner
    next hbig =>
      split
      next hcond =>
        intro c hc
        rcases List.mem_append.mp hc with h1 | h2
        · exact h c h1
        · have hc2 : c = (pyJoin "\n\n" st.cur, tag) := by simpa using h2
          rw [hc2]
      next hcond =>
        exact h

/-- C1. For every markdown string and every `DocumentProcessor`
constructed with (positive) chunk size `S`, every chunk emitted by
`chunk_content` has character length at most `2 * S`.  (The proof in fact
keeps every chunk within `S + 2`; for a non-positive chunk size the Python
force-split loop `range(0, sent_size, chunk_size)` raises `ValueError`, so
no chunk list is returned at all there.) -/
theorem chunk_content_length_le_twice_chunk_size
    (S : Nat) (hS : 1 ≤ S) (markdown concept_tag : String) :
    ∀ c ∈ chunk_content S markdown concept_tag, c.1.length ≤ 2 * S := by
  intro c hc
  simp only [chunk_content] at hc
  by_cases hmd : pyStrip markdown = ""
  · rw [if_pos hmd] at hc
    exact absurd hc (List.not_mem_nil c)
  · rw [if_neg hmd] at hc
    have hinv : ChunkInv S "\n\n"
        ((markdown.splitOn "\n\n").foldl (stepParagraph S concept_tag) ⟨[], [], 0⟩) := by
      refine foldl_preserve (fun s a hs => stepParagraph_inv S concept_tag hS s a hs) _ _ ?_
      exact ⟨fun c hc => absurd hc (List.not_mem_nil c), Or.inl rfl⟩
    exact flush_chunks_bound hinv c hc

/-- Witness for C1 at a concrete chunk size. -/
theorem chunk_content_length_le_twice_chunk_size_witness :
    1 ≤ 3 ∧
      ∀ c ∈ chunk_content 3 "one two. three\n\nfour" "tag", c.1.length ≤ 2 * 3 :=
  ⟨by decide,
    chunk_content_length_le_twice_chunk_size 3 (by decide) "one two. three\n\nfour" "tag"⟩

/-- C2. For every markdown input and every concept tag (including the
empty string), every tuple returned by `chunk_content` carries exactly the
supplied concept tag, unchanged; and empty or whitespace-only markdown
yields an empty chunk list. -/
theorem chunk_content_tag_preserved_and_empty
    (S : Nat) (_hS : 1 ≤ S) (markdown concept_tag : String) :
    (∀ c ∈ chunk_content S markdown concept_tag, c.2 = concept_tag) ∧
    (pyStrip markdown = "" → chunk_content S markdown concept_tag = []) := by
  constructor
  · intro c hc
    simp only [chunk_content] at hc
    by_cases hmd : pyStrip markdown = ""
    · rw [if_pos hmd] at hc
      exact absurd hc (List.not_mem_nil c)
    · rw [if_neg hmd] at hc
      have hinv : TagInv concept_tag
          ((markdown.splitOn "\n\n").foldl (stepParagraph S concept_tag) ⟨[], [], 0⟩) := by
        refine foldl_preserve (fun s a hs => stepParagraph_tag S concept_tag s a hs) _ _ ?_
        exact fun c hc => absurd hc (List.not_mem_nil c)
      exact flush_chunks_tag hinv c hc
  · intro hmd
    simp [chunk_content, hmd]

/-- Witness for C2: a whitespace-only input yields `[]`, and on a non-empty
input the (empty-string) tag is preserved. -/
theorem chunk_content_tag_preserved_and_empty_witness :
    (1 ≤ 5 ∧ pyStrip " \t\n " = "" ∧ chunk_content 5 " \t\n " "tag" = []) ∧
      (∀ c ∈ chunk_content 5 "hello world" "", c.2 = "") :=
  ⟨⟨by decide, by decide,
      (chunk_content_tag_preserved_and_empty 5 (by decide) " \t\n " "tag").2 (by decide)⟩,
    (chunk_content_tag_preserved_and_empty 5 (by decide) "hello world" "").1⟩

/-! ## Conversion validation (claim C3) -/

/-- C3. `convert_to_markdown` fails with NotFound when the path does not
exist, and with InvalidInput mentioning "Unsupported file format" when the
path exists but its lowercased extension is outside the supported set; the
existence check runs first, so a nonexistent path yields NotFound whatever
its extension. -/
theorem convert_to_markdown_validate_errors (path : FsPath) (file_path : String) :
    (path.pathExists = false →
      convert_to_markdown_validate path file_path
        = .error (.notFound ("File not found: " ++ file_path))) ∧
    (path.pathExists = true →
      SUPPORTED_FORMATS.contains (pyLower path.suffix) = false →
      ∃ tail, convert_to_markdown_validate path file_path
        = .error (.invalidInput ("Unsupported file format" ++ tail))) ∧
    (path.pathExists = false →
      SUPPORTED_FORMATS.contains (pyLower path.suffix) = false →
      convert_to_markdown_validate path file_path
        = .error (.notFound ("File not found: " ++ file_path))) := by
  refine ⟨?_, ?_, ?_⟩
  · intro h
    simp [convert_to_markdown_validate, h]
  · intro h hfmt
    refine ⟨": " ++ path.suffix ++ (". Supported formats: " ++ pyJoin ", " SUPPORTED_FORMATS), ?_⟩
    simp only [convert_to_markdown_validate, h, hfmt]
    simp [← String.append_assoc]
  · intro h _
    simp [convert_to_markdown_validate, h]

/-- Witness for C3 at a concrete path with an unsupported extension. -/
theorem convert_to_markdown_validate_errors_witness :
    (convert_to_markdown_validate ⟨false, ".xyz"⟩ "docs/f.xyz"
        = .error (.notFound "File not found: docs/f.xyz")) ∧
    (∃ tail, convert_to_markdown_validate ⟨true, ".xyz"⟩ "docs/f.xyz"
        = .error (.invalidInput ("Unsupported file format" ++ tail))) :=
  ⟨by
      have h := (convert_to_markdown_validate_errors ⟨false, ".xyz"⟩ "docs/f.xyz").1 rfl
      simpa using h,
    (convert_to_markdown_validate_errors ⟨true, ".xyz"⟩ "docs/f.xyz").2.1 rfl (by decide)⟩

/-! ## Embedding dimension validation (claim C5) -/

/-- C5. For non-empty text: when the discovered expected vector
dimension is a positive integer and the embedding's length differs,
`generate_embedding` fails with an `EmbeddingDimensionMismatchError`
carrying the expected and actual dimensions, the configured override, the
(lowercased) provider, the model, and the resolved base URL, and whose
payload has code `"EMBEDDING_DIMENSION_MISMATCH"`; when the length matches,
or dimension checking is disabled (no discovered dimension), no error is
raised and the embedding is returned. -/
theorem generate_embedding_dimension_check
    (expected : Option Int) (cfg : EmbConfig) (text : String)
    (embedding : List Float) (htext : pyStrip text ≠ "") :
    (∀ e : Int, expected = some e → 0 < e → (embedding.length : Int) ≠ e →
      generate_embedding expected cfg text embedding
        = .error (.dimMismatch
            { expected_db_dimensions := e
              actual_model_dimensions := (embedding.length : Int)
              configured_dimensions := cfg.embedding_dimensions
              provider := pyLower (orEmpty cfg.embedding_provider)
              model := orEmpty cfg.embedding_model
              base_url := resolveBaseUrl cfg })) ∧
    (∀ err : EmbeddingDimensionMismatchError,
      err.to_payload.code = "EMBEDDING_DIMENSION_MISMATCH") ∧
    (expected = none →
      generate_embedding expected cfg text embedding = .ok embedding) ∧
    (∀ e : Int, expected = some e → (embedding.length : Int) = e →
      generate_embedding expected cfg text embedding = .ok embedding) := by
  refine ⟨?_, fun _ => rfl, ?_, ?_⟩
  · intro e he hpos hne
    subst he
    simp [generate_embedding, _validate_embedding_dimension, htext,
      if_neg (not_le.mpr hpos), hne]
  · intro h
    subst h
    simp [generate_embedding, _validate_embedding_dimension, htext]
  · intro e he heq
    subst he
    by_cases hle : e ≤ 0
    · simp [generate_embedding, _validate_embedding_dimension, htext, hle]
    · simp [generate_embedding, _validate_embedding_dimension, htext, hle, heq]

/-- Witness for C5: a 768-wide index against an empty embedding. -/
theorem generate_embedding_dimension_check_witness :
    pyStrip "hello" ≠ "" ∧ (0 : Int) < 768 ∧ (([] : List Float).length : Int) ≠ 768 ∧
      generate_embedding (some 768) ⟨none, none, none, none, none⟩ "hello" []
        = .error (.dimMismatch
            { expected_db_dimensions := 768
              actual_model_dimensions := (([] : List Float).length : Int)
              configured_dimensions := (none : Option Int)
              provider := pyLower (orEmpty none)
              model := orEmpty none
              base_url := resolveBaseUrl ⟨none, none, none, none, none⟩ }) :=
  ⟨by decide, by decide, by decide,
    (generate_embedding_dimension_check (some 768) ⟨none, none, none, none, none⟩
      "hello" [] (by decide)).1 768 rfl (by decide) (by decide)⟩

/-! ## Concept tutor fallback (claim C10) -/

/-- C10. For every concept name and every LLM response string (including
well-formed JSON with the keys `analogy`, `insight`, `question`),
`get_active_intel` returns the deterministic fallback triple keyed to the
concept name: the parsed JSON is never used, because the key lookups are
performed with `.get` on the raw response string, which raises
`AttributeError` and is caught by the fallback handler (an empty response
returns the fallback directly). -/
theorem get_active_intel_always_fallback (concept_name response : String) :
    get_active_intel concept_name response = _get_fallback_intel concept_name ∧
    (get_active_intel concept_name response).analogy
      = "Imagine " ++ concept_name ++ " as a building block in your knowledge." ∧
    (get_active_intel concept_name response).insight
      = "Mastering this unlocks more advanced topics." ∧
    (get_active_intel concept_name response).question
      = "Can you explain " ++ concept_name ++ " in your own words?" := by
  have h : get_active_intel concept_name response = _get_fallback_intel concept_name := by
    by_cases hr : response = ""
    · simp [get_active_intel, get_active_intel_try, hr]
    · simp [get_active_intel, get_active_intel_try, hr, strDotGet]
  exact ⟨h, by rw [h]; rfl, by rw [h]; rfl, by rw [h]; rfl⟩

/-! ## Settings clamping (claim C6) -/

/-- C6. A PATCH of the cognitive settings always persists in-range
calibration values: each supplied value is stored as
`max(lo, min(hi, value))`, so an out-of-range input persists the clamped
boundary, never the input itself; and a patch never moves an in-range row
out of range. -/
theorem update_settings_clamps (data : SettingsUpdate) (s : UserSettingsRow) :
    (∀ v, data.target_retention = some v →
      (update_settings data s).target_retention = max 0.7 (min 0.97 v) ∧
      0.7 ≤ (update_settings data s).target_retention ∧
      (update_settings data s).target_retention ≤ 0.97 ∧
      (v < 0.7 → (update_settings data s).target_retention = 0.7) ∧
      (0.97 < v → (update_settings data s).target_retention = 0.97)) ∧
    (∀ v, data.daily_new_limit = some v →
      (update_settings data s).daily_new_limit = max 1 (min 100 v) ∧
      1 ≤ (update_settings data s).daily_new_limit ∧
      (update_settings data s).daily_new_limit ≤ 100 ∧
      (v < 1 → (update_settings data s).daily_new_limit = 1) ∧
      (100 < v → (update_settings data s).daily_new_limit = 100)) ∧
    (∀ v, data.focus_duration = some v →
      (update_settings data s).focus_duration = max 5 (min 120 v) ∧
      5 ≤ (update_settings data s).focus_duration ∧
      (update_settings data s).focus_duration ≤ 120 ∧
      (v < 5 → (update_settings data s).focus_duration = 5) ∧
      (120 < v → (update_settings data s).focus_duration = 120)) ∧
    (∀ v, data.break_duration = some v →
      (update_settings data s).break_duration = max 1 (min 30 v) ∧
      1 ≤ (update_settings data s).break_duration ∧
      (update_settings data s).break_duration ≤ 30 ∧
      (v < 1 → (update_settings data s).break_duration = 1) ∧
      (30 < v → (update_settings data s).break_duration = 30)) ∧
    ((0.7 ≤ s.target_retention ∧ s.target_retention ≤ 0.97 ∧
      1 ≤ s.daily_new_limit ∧ s.daily_new_limit ≤ 100 ∧
      5 ≤ s.focus_duration ∧ s.focus_duration ≤ 120 ∧
      1 ≤ s.break_duration ∧ s.break_duration ≤ 30) →
      (0.7 ≤ (update_settings data s).target_retention ∧
        (update_settings data s).target_retention ≤ 0.97 ∧
        1 ≤ (update_settings data s).daily_new_limit ∧
        (update_settings data s).daily_new_limit ≤ 100 ∧
        5 ≤ (update_settings data s).focus_duration ∧
        (update_settings data s).focus_duration ≤ 120 ∧
        1 ≤ (update_settings data s).break_duration ∧
        (update_settings data s).break_duration ≤ 30)) := by
  have htr : ∀ v : ℚ, data.target_retention = some v →
      (update_settings data s).target_retention = max 0.7 (min 0.97 v) := by
    intro v hv; simp [update_settings, hv]
  have hdn : ∀ v : Int, data.daily_new_limit = some v →
      (update_settings data s).daily_new_limit = max 1 (min 100 v) := by
    intro v hv; simp [update_settings, hv]
  have hfd : ∀ v : Int, data.focus_duration = some v →
      (update_settings data s).focus_duration = max 5 (min 120 v) := by
    intro v hv; simp [update_settings, hv]
  have hbd : ∀ v : Int, data.break_duration = some v →
      (update_settings data s).break_duration = max 1 (min 30 v) := by
    intro v hv; simp [update_settings, hv]
  refine ⟨?_, ?_, ?_, ?_, ?_⟩
  · intro v hv
    refine ⟨htr v hv, ?_, ?_, ?_, ?_⟩ <;> rw [htr v hv]
    · exact le_max_left _ _
    · exact max_le (by norm_num) (min_le_left _ _)
    · intro hlt
      rw [min_eq_right (le_trans hlt.le (by norm_num)), max_eq_left hlt.le]
    · intro hgt
      rw [min_eq_left hgt.le, max_eq_right (by norm_num)]
  · intro v hv
    refine ⟨hdn v hv, ?_, ?_, ?_, ?_⟩ <;> rw [hdn v hv] <;> omega
  · intro v hv
    refine ⟨hfd v hv, ?_, ?_, ?_, ?_⟩ <;> rw [hfd v hv] <;> omega
  · intro v hv
    refine ⟨hbd v hv, ?_, ?_, ?_, ?_⟩ <;> rw [hbd v hv] <;> omega
  · intro hin
    obtain ⟨h1, h2, h3, h4, h5, h6, h7, h8⟩ := hin
    refine ⟨?_, ?_, ?_, ?_, ?_, ?_, ?_, ?_⟩
    · rcases hv : data.target_retention with _ | v
      · simpa [update_settings, hv] using h1
      · rw [(htr v hv)]; exact le_max_left _ _
    · rcases hv : data.target_retention with _ | v
      · simpa [update_settings, hv] using h2
      · rw [(htr v hv)]; exact max_le (by norm_num) (min_le_left _ _)
    · rcases hv : data.daily_new_limit with _ | v
      · simpa [update_settings, hv] using h3
      · rw [(hdn v hv)]; omega
    · rcases hv : data.daily_new_limit with _ | v
      · simpa [update_settings, hv] using h4
      · rw [(hdn v hv)]; omega
    · rcases hv : data.focus_duration with _ | v
      · simpa [update_settings, hv] using h5
      · rw [(hfd v hv)]; omega
    · rcases hv : data.focus_duration with _ | v
      · simpa [update_settings, hv] using h6
      · rw [(hfd v hv)]; omega
    · rcases hv : data.break_duration with _ | v
      · simpa [update_settings, hv] using h7
      · rw [(hbd v hv)]; omega
    · rcases hv : data.break_duration with _ | v
      · simpa [update_settings, hv] using h8
      · rw [(hbd v hv)]; omega

/-- Witness for C6: a patch with every calibration value out of range
persists exactly the boundary values. -/
theorem update_settings_clamps_witness :
    (update_settings
        ⟨some 2, some 0, some 999, some 31, none, none, none, none, none⟩
        ⟨0.9, 10, 25, 5, none, none, false, false, false⟩).target_retention = 0.97 ∧
    (update_settings
        ⟨some 2, some 0, some 999, some 31, none, none, none, none, none⟩
        ⟨0.9, 10, 25, 5, none, none, false, false, false⟩).daily_new_limit = 1 ∧
    (update_settings
        ⟨some 2, some 0, some 999, some 31, none, none, none, none, none⟩
        ⟨0.9, 10, 25, 5, none, none, false, false, false⟩).focus_duration = 120 ∧
    (update_settings
        ⟨some 2, some 0, some 999, some 31, none, none, none, none, none⟩
        ⟨0.9, 10, 25, 5, none, none, false, false, false⟩).break_duration = 30 :=
  ⟨(((update_settings_clamps _ _).1 2 rfl).2.2.2.2 (by norm_num)),
    (((update_settings_clamps _ _).2.1 0 rfl).2.2.2.1 (by norm_num)),
    (((update_settings_clamps _ _).2.2.1 999 rfl).2.2.2.2 (by norm_num)),
    (((update_settings_clamps _ _).2.2.2.1 31 rfl).2.2.2.2 (by norm_num))⟩

/-! ## Goal enrichment (claim C7) -/

/-- Counterexample to C7 as stated: the claim asserts that *any* goal whose
deadline yields `days_remaining = 5` with `target_hours - logged_hours = 12`
reports `is_on_track = false`, but the code computes the required pace only
when `target_hours > 0` (goals.py line 151); a goal with
`target_hours = -1, logged_hours = -13` satisfies the claim's premises yet
reports `is_on_track = true`. -/
theorem enrich_goal_nonpositive_target_cex :
    (Goal.mk "g1" "t" (-1) (-13) (some 432000) 1 "active").target_hours
        - (Goal.mk "g1" "t" (-1) (-13) (some 432000) 1 "active").logged_hours = 12 ∧
    (_enrich_goal_response 0
        (Goal.mk "g1" "t" (-1) (-13) (some 432000) 1 "active")).days_remaining = some 5 ∧
    (_enrich_goal_response 0
        (Goal.mk "g1" "t" (-1) (-13) (some 432000) 1 "active")).is_on_track = true := by
  refine ⟨by norm_num, ?_, ?_⟩
  · simp only [_enrich_goal_response]
    norm_num
  · simp only [_enrich_goal_response]
    norm_num

/-- C7 (amended). `progress_percent = min(100, logged/target*100)` for
positive targets (in particular 50% for `target=10, logged=5`); a goal with
a deadline yielding `days_remaining = 5`, **positive target**, and
`target_hours - logged_hours = 12` (required pace 2.4 h/day) is not on
track; and a goal with no deadline is always on track.  (Amended from the
claim only by requiring `target_hours > 0` in the on-track clause, which the
code checks before computing the pace.) -/
theorem enrich_goal_response_computation :
    (∀ (now : ℚ) (g : Goal), 0 < g.target_hours →
      (_enrich_goal_response now g).progress_percent
        = min 100 (g.logged_hours / g.target_hours * 100)) ∧
    (∀ (now : ℚ) (g : Goal), g.target_hours = 10 → g.logged_hours = 5 →
      (_enrich_goal_response now g).progress_percent = 50) ∧
    (∀ (now : ℚ) (g : Goal) (d : ℚ), g.deadline = some d →
      Int.floor ((d - now) / 86400) = 5 →
      g.target_hours - g.logged_hours = 12 → 0 < g.target_hours →
      (_enrich_goal_response now g).is_on_track = false) ∧
    (∀ (now : ℚ) (g : Goal), g.deadline = none →
      (_enrich_goal_response now g).is_on_track = true) := by
  refine ⟨?_, ?_, ?_, ?_⟩
  · intro now g ht
    rcases hd : g.deadline with _ | d <;> simp [_enrich_goal_response, hd, ht]
  · intro now g ht hl
    rcases hd : g.deadline with _ | d <;>
      simp [_enrich_goal_response, hd, ht, hl] <;> norm_num
  · intro now g d hd hfloor hdiff ht
    simp only [_enrich_goal_response, hd, hfloor]
    rw [if_pos ⟨by norm_num, ht⟩]
    rw [hdiff]
    norm_num
  · intro now g hd
    simp [_enrich_goal_response, hd]

/-- Witness for the amended C7. -/
theorem enrich_goal_response_computation_witness :
    (_enrich_goal_response 0 (Goal.mk "g" "t" 10 5 none 1 "active")).progress_percent = 50 ∧
    (_enrich_goal_response 0 (Goal.mk "g" "t" 10 5 none 1 "active")).is_on_track = true ∧
    (_enrich_goal_response 0 (Goal.mk "g" "t" 20 8 (some 432000) 1 "active")).is_on_track = false :=
  ⟨enrich_goal_response_computation.2.1 0 (Goal.mk "g" "t" 10 5 none 1 "active") rfl rfl,
    enrich_goal_response_computation.2.2.2 0 (Goal.mk "g" "t" 10 5 none 1 "active") rfl,
    enrich_goal_response_computation.2.2.1 0 (Goal.mk "g" "t" 20 8 (some 432000) 1 "active")
      432000 rfl (by norm_num) (by norm_num) (by norm_num)⟩

/-! ## Focus-session time logging (claim C9) -/

/-- Counterexample to C9 as stated: `end_focus_session` adds
`duration_minutes / 60` to the linked goal's `logged_hours` with no sign
check (goals.py line 125), and the request schema (spec-modelled: §3
**FocusSession** places no constraint on the duration) admits negative
durations, so `logged_hours` can decrease: ending a session with
`duration_minutes = -60` takes a goal from 1 logged hour to 0. -/
theorem end_focus_session_negative_duration_cex :
    (end_focus_session 0 (FocusSession.mk "s" (some "g1") none none none)
        (some (Goal.mk "g1" "t" 10 1 none 1 "active"))
        ⟨-60, none⟩).2
      = some (Goal.mk "g1" "t" 10 0 none 1 "active") ∧
    ¬ ((1 : ℚ) ≤ 0) := by
  constructor
  · simp only [end_focus_session]
    norm_num
  · norm_num

/-- C9 (amended). Ending a focus session linked to an existing goal sets
that goal's `logged_hours` to its previous value plus
`duration_minutes / 60`; provided the reported duration is non-negative,
`logged_hours` is monotonically non-decreasing.  (Amended from the claim
only by the non-negativity proviso the counterexample forces.) -/
theorem end_focus_session_adds_duration
    (now : ℚ) (session : FocusSession) (g : Goal) (end_data : FocusSessionEnd)
    (hlink : session.goal_id ≠ none)
    (hd : 0 ≤ end_data.duration_minutes) :
    (end_focus_session now session (some g) end_data).2
      = some { g with logged_hours := g.logged_hours + end_data.duration_minutes / 60 } ∧
    g.logged_hours ≤ g.logged_hours + end_data.duration_minutes / 60 := by
  constructor
  · rcases hgid : session.goal_id with _ | gid
    · exact absurd hgid hlink
    · simp [end_focus_session, hgid]
  · have h60 : 0 ≤ end_data.duration_minutes / 60 :=
      div_nonneg hd (by norm_num)
    linarith

/-- Witness for the amended C9: a 30-minute session adds half an hour. -/
theorem end_focus_session_adds_duration_witness :
    (end_focus_session 0 (FocusSession.mk "s" (some "g1") none none none)
        (some (Goal.mk "g1" "t" 10 1 none 1 "active"))
        ⟨30, none⟩).2
      = some (Goal.mk "g1" "t" 10 (1 + 30 / 60) none 1 "active") ∧
    (1 : ℚ) ≤ 1 + 30 / 60 :=
  (end_focus_session_adds_duration 0 (FocusSession.mk "s" (some "g1") none none none)
    (Goal.mk "g1" "t" 10 1 none 1 "active") ⟨30, none⟩ (by simp) (by norm_num))

/-! ## Quiz fallback generation (claim C8) -/

/-- Specification of the masking loop: it appends one output word per input
word; each output word is either the input word or `"[[blank]]"` replacing a
word longer than 6 characters; and the number of positions actually changed
is at most `3 - acc.length` (the loop masks only while fewer than 3 words
have been accumulated). -/
theorem maskWordsGo_spec (ws : List String) :
    ∀ acc : List String,
      ∃ tail : List String,
        maskWordsGo acc ws = acc ++ tail ∧
        tail.length = ws.length ∧
        (∀ pr ∈ ws.zip tail, pr.2 = pr.1 ∨ (pr.2 = "[[blank]]" ∧ pr.1.length > 6)) ∧
        (ws.zip tail).countP (fun pr => pr.2 ≠ pr.1) ≤ 3 - acc.length := by
  induction ws with
  | nil =>
    intro acc
    exact ⟨[], by simp [maskWordsGo], rfl, by simp, by simp⟩
  | cons w ws ih =>
    intro acc
    by_cases hc : w.length > 6 ∧ acc.length < 3
    · obtain ⟨tail, heq, hlen, hmem, hcnt⟩ := ih (acc ++ ["[[blank]]"])
      refine ⟨"[[blank]]" :: tail, ?_, by simp [hlen], ?_, ?_⟩
      · simp only [maskWordsGo, if_pos hc, heq, List.append_assoc,
          List.singleton_append]
      · intro pr hpr
        rcases List.mem_cons.mp (by simpa using hpr) with h1 | h2
        · subst h1; exact Or.inr ⟨rfl, hc.1⟩
        · exact hmem pr h2
      · have hacc : (acc ++ ["[[blank]]"]).length = acc.length + 1 := by simp
        rw [hacc] at hcnt
        simp only [List.zip_cons_cons, List.countP_cons]
        have hite : (if decide (("[[blank]]" : String) ≠ w) = true then 1 else 0) ≤ 1 := by
          split <;> omega
        have h3 : acc.length < 3 := hc.2
        omega
    · obtain ⟨tail, heq, hlen, hmem, hcnt⟩ := ih (acc ++ [w])
      refine ⟨w :: tail, ?_, by simp [hlen], ?_, ?_⟩
      · simp only [maskWordsGo, if_neg hc, heq, List.append_assoc,
          List.singleton_append]
      · intro pr hpr
        rcases List.mem_cons.mp (by simpa using hpr) with h1 | h2
        · subst h1; exact Or.inl rfl
        · exact hmem pr h2
      · have hacc : (acc ++ [w]).length = acc.length + 1 := by simp
        rw [hacc] at hcnt
        simp only [List.zip_cons_cons, List.countP_cons]
        have hzero : (if decide (w ≠ w) = true then 1 else 0) = 0 := by simp
        rw [hzero]
        omega

/-- C8. In the deterministic quiz-generation fallback: only stripped
paragraphs longer than 80 characters are selected, at most `count` items are
produced, each item's answer key is `["Key ideas from passage"]`, and the
masked markdown is the space-join of the passage's words in which at most 3
words are replaced, every replaced word being longer than 6 characters and
every replacement being the `[[blank]]` marker. -/
theorem fallback_generate_items_spec (text : String) (count : Nat) :
    (_fallback_generate_items text count).length ≤ count ∧
    ∀ it ∈ _fallback_generate_items text count,
      (it.passage_markdown ∈ (reSplitBlank text).map pyStrip ∧
        it.passage_markdown.length > 80) ∧
      it.answer_key = ["Key ideas from passage"] ∧
      ∃ masked : List String,
        it.masked_markdown = pyJoin " " masked ∧
        masked.length = (pyWords it.passage_markdown).length ∧
        (∀ pr ∈ (pyWords it.passage_markdown).zip masked,
          pr.2 = pr.1 ∨ (pr.2 = "[[blank]]" ∧ pr.1.length > 6)) ∧
        ((pyWords it.passage_markdown).zip masked).countP (fun pr => pr.2 ≠ pr.1) ≤ 3 := by
  constructor
  · simp only [_fallback_generate_items, List.length_map, List.length_take]
    omega
  · intro it hit
    simp only [_fallback_generate_items] at hit
    obtain ⟨p, hp, rfl⟩ := List.mem_map.mp hit
    have hpfull := List.mem_of_mem_take hp
    have hpf := List.mem_filter.mp hpfull
    refine ⟨⟨hpf.1, by simpa using hpf.2⟩, rfl, ?_⟩
    obtain ⟨tail, heq, hlen, hmem, hcnt⟩ := maskWordsGo_spec (pyWords p) []
    refine ⟨tail, ?_, hlen, hmem, by simpa using hcnt⟩
    show pyJoin " " (maskWordsGo [] (pyWords p)) = pyJoin " " tail
    rw [heq, List.nil_append]

/-- Witness for C8 on a concrete two-paragraph text. -/
theorem fallback_generate_items_spec_witness :
    (_fallback_generate_items
        "abcdefgh abcdefgh abcdefgh abcdefgh abcdefgh abcdefgh abcdefgh abcdefgh abcdefgh abcdefgh\n\nshort"
        2).length ≤ 2 ∧
    ((QuizFallbackItem.mk
        "abcdefgh abcdefgh abcdefgh abcdefgh abcdefgh abcdefgh abcdefgh abcdefgh abcdefgh abcdefgh"
        "[[blank]] [[blank]] [[blank]] abcdefgh abcdefgh abcdefgh abcdefgh abcdefgh abcdefgh abcdefgh"
        ["Key ideas from passage"]).passage_markdown
        ∈ (reSplitBlank
            "abcdefgh abcdefgh abcdefgh abcdefgh abcdefgh abcdefgh abcdefgh abcdefgh abcdefgh abcdefgh\n\nshort").map
              pyStrip ∧
      (QuizFallbackItem.mk
        "abcdefgh abcdefgh abcdefgh abcdefgh abcdefgh abcdefgh abcdefgh abcdefgh abcdefgh abcdefgh"
        "[[blank]] [[blank]] [[blank]] abcdefgh abcdefgh abcdefgh abcdefgh abcdefgh abcdefgh abcdefgh"
        ["Key ideas from passage"]).passage_markdown.length > 80) ∧
    (QuizFallbackItem.mk
        "abcdefgh abcdefgh abcdefgh abcdefgh abcdefgh abcdefgh abcdefgh abcdefgh abcdefgh abcdefgh"
        "[[blank]] [[blank]] [[blank]] abcdefgh abcdefgh abcdefgh abcdefgh abcdefgh abcdefgh abcdefgh"
        ["Key ideas from passage"]).answer_key = ["Key ideas from passage"] ∧
    ∃ masked : List String,
      (QuizFallbackItem.mk
          "abcdefgh abcdefgh abcdefgh abcdefgh abcdefgh abcdefgh abcdefgh abcdefgh abcdefgh abcdefgh"
          "[[blank]] [[blank]] [[blank]] abcdefgh abcdefgh abcdefgh abcdefgh abcdefgh abcdefgh abcdefgh"
          ["Key ideas from passage"]).masked_markdown = pyJoin " " masked ∧
      masked.length
        = (pyWords (QuizFallbackItem.mk
            "abcdefgh abcdefgh abcdefgh abcdefgh abcdefgh abcdefgh abcdefgh abcdefgh abcdefgh abcdefgh"
            "[[blank]] [[blank]] [[blank]] abcdefgh abcdefgh abcdefgh abcdefgh abcdefgh abcdefgh abcdefgh"
            ["Key ideas from passage"]).passage_markdown).length ∧
      (∀ pr ∈ (pyWords (QuizFallbackItem.mk
            "abcdefgh abcdefgh abcdefgh abcdefgh abcdefgh abcdefgh abcdefgh abcdefgh abcdefgh abcdefgh"
            "[[blank]] [[blank]] [[blank]] abcdefgh abcdefgh abcdefgh abcdefgh abcdefgh abcdefgh abcdefgh"
            ["Key ideas from passage"]).passage_markdown).zip masked,
        pr.2 = pr.1 ∨ (pr.2 = "[[blank]]" ∧ pr.1.length > 6)) ∧
      ((pyWords (QuizFallbackItem.mk
            "abcdefgh abcdefgh abcdefgh abcdefgh abcdefgh abcdefgh abcdefgh abcdefgh abcdefgh abcdefgh"
            "[[blank]] [[blank]] [[blank]] abcdefgh abcdefgh abcdefgh abcdefgh abcdefgh abcdefgh abcdefgh"
            ["Key ideas from passage"]).passage_markdown).zip masked).countP
          (fun pr => pr.2 ≠ pr.1) ≤ 3 :=
  ⟨(fallback_generate_items_spec
      "abcdefgh abcdefgh abcdefgh abcdefgh abcdefgh abcdefgh abcdefgh abcdefgh abcdefgh abcdefgh\n\nshort"
      2).1,
    (fallback_generate_items_spec
      "abcdefgh abcdefgh abcdefgh abcdefgh abcdefgh abcdefgh abcdefgh abcdefgh abcdefgh abcdefgh\n\nshort"
      2).2 _ (by decide)⟩

/-! ## Vector storage round-trip (claim C4) -/

theorem sanitize_eq_self {s : String} (h : Char.ofNat 0 ∉ s.data) :
    sanitize_text s = s := by
  cases s with
  | mk l =>
    show String.mk (l.filter (fun c => c ≠ Char.ofNat 0)) = String.mk l
    refine congrArg String.mk ?_
    rw [List.filter_eq_self]
    intro a ha
    exact decide_eq_true (fun heq => h (heq ▸ ha))

/-- Counterexample to C4 as stated: `store_chunk` NUL-strips the stored
fields (`_sanitize_text`, vector_storage.py lines 240–243) but
`retrieve_chunks_by_concept` queries with the *un*-sanitized trimmed,
lowercased tag (line 444), so a concept tag containing a NUL character is
stored as a different string than the one retrieval searches for: storing
with tag `"a\x00b"` succeeds (the row's tag is `"ab"`) and retrieving with
the same tag returns no chunks instead of exactly one. -/
theorem store_retrieve_nul_tag_cex :
    store_chunk none ⟨none, none, none, none, none⟩ [] VectorDb.empty
        "s" "c" "a\x00b" none
      = .ok (0, ⟨[⟨0, "s", "c", [], "ab", none, 0, 0⟩], 1, 1⟩) ∧
    retrieve_chunks_by_concept ⟨[⟨0, "s", "c", [], "ab", none, 0, 0⟩], 1, 1⟩
        "a\x00b" none
      = .ok [] :=
  ⟨rfl, rfl⟩

/-- C4 (amended). For every non-empty `doc_source`, `content` and
`concept_tag` whose trimmed (and, for the tag, lowercased) forms contain no
NUL character, and for which the embedding dimension check passes, storing a
chunk into an empty store and retrieving by the same tag returns exactly one
chunk whose `doc_source` and `content` equal the trimmed inputs, whose
`concept_tag` equals the trimmed, lowercased input tag, and whose id equals
the id returned by `store_chunk`.  (Amended from the claim only by the
no-NUL proviso the counterexample forces; the stored fields are additionally
NUL-stripped, which is the identity on NUL-free strings.) -/
theorem store_then_retrieve_roundtrip
    (expected : Option Int) (cfg : EmbConfig) (embedding : List Float)
    (doc_source content concept_tag : String) (document_id : Option Nat)
    (hds : pyStrip doc_source ≠ "") (hct : pyStrip content ≠ "")
    (htg : pyStrip concept_tag ≠ "")
    (hdim : _validate_embedding_dimension expected cfg embedding = none)
    (h1 : Char.ofNat 0 ∉ (pyStrip doc_source).data)
    (h2 : Char.ofNat 0 ∉ (pyStrip content).data)
    (h3 : Char.ofNat 0 ∉ (pyLower (pyStrip concept_tag)).data) :
    ∃ db2 : VectorDb,
      store_chunk expected cfg embedding VectorDb.empty
          doc_source content concept_tag document_id
        = .ok (0, db2) ∧
      retrieve_chunks_by_concept db2 concept_tag none
        = .ok [⟨0, pyStrip doc_source, pyStrip content,
                pyLower (pyStrip concept_tag), 0⟩] := by
  have hgen : generate_embedding expected cfg content embedding = .ok embedding := by
    simp [generate_embedding, hct, hdim]
  refine ⟨⟨[{ id := 0
              doc_source := sanitize_text (pyStrip doc_source)
              content := sanitize_text (pyStrip content)
              embedding := embedding
              concept_tag := sanitize_text (pyLower (pyStrip concept_tag))
              document_id := document_id
              embedding_dimensions := embedding.length
              created_at := 0 }], 1, 1⟩, ?_, ?_⟩
  · simp [store_chunk, hds, hct, htg, hgen, VectorDb.empty]
  · simp [retrieve_chunks_by_concept, htg, sanitize_eq_self h1,
      sanitize_eq_self h2, sanitize_eq_self h3]

/-- Witness for the amended C4 on concrete inputs. -/
theorem store_then_retrieve_roundtrip_witness :
    ∃ db2 : VectorDb,
      store_chunk none ⟨none, none, none, none, none⟩ [] VectorDb.empty
          " doc.pdf " "hello world" "Tag A" (some 7)
        = .ok (0, db2) ∧
      retrieve_chunks_by_concept db2 "Tag A" none
        = .ok [⟨0, pyStrip " doc.pdf ", pyStrip "hello world",
                pyLower (pyStrip "Tag A"), 0⟩] :=
  store_then_retrieve_roundtrip none ⟨none, none, none, none, none⟩ []
    " doc.pdf " "hello world" "Tag A" (some 7)
    (by decide) (by decide) (by decide) rfl (by decide) (by decide) (by decide)
